import Mathlib

/-!
Verification development for the digiplayer-client agent.

The Python sources under src/digiplayer are shallowly embedded as pure
Lean functions.  Network and OS effects are modelled by explicit outcome
parameters (what the environment answered), and state mutation by
explicit state passing.  Python truthiness of optional integers
(where both None and 0 are falsy) is modelled by optTruthy.
-/

/-- Python truthiness of an optional integer: None and 0 are falsy. -/
def optTruthy : Option Nat → Bool
  | none => false
  | some n => n != 0

/-- Python truthiness of an optional string: None and the empty string are falsy. -/
def strTruthy : Option String → Bool
  | none => false
  | some s => s.length != 0

/-! ## Identity (src/digiplayer/utils.py)

generate_device_id concatenates the CPU serial and MAC with a dash,
hashes with MD5, takes the first 12 hex digits uppercased and prefixes
"DIG".  The MD5 below models Python hashlib.md5 on a byte list, with
32-bit arithmetic expressed as Nat reduced modulo 2^32. -/

/-- Reduce to a 32-bit word. -/
def u32 (n : Nat) : Nat := n % 4294967296

/-- 32-bit left rotation (input assumed < 2^32). -/
def rotl (x s : Nat) : Nat := u32 ((x <<< s) ||| (x >>> (32 - s)))

/-- 32-bit bitwise complement. -/
def not32 (x : Nat) : Nat := x ^^^ 4294967295

def mdF (b c d : Nat) : Nat := (b &&& c) ||| (not32 b &&& d)
def mdG (b c d : Nat) : Nat := (d &&& b) ||| (not32 d &&& c)
def mdH (b c d : Nat) : Nat := b ^^^ c ^^^ d
def mdI (b c d : Nat) : Nat := c ^^^ (b ||| not32 d)

/-- The 64 MD5 round constants, floor(abs(sin(i+1)) * 2^32). -/
def md5K : List Nat :=
  [0xd76aa478, 0xe8c7b756, 0x242070db, 0xc1bdceee,
   0xf57c0faf, 0x4787c62a, 0xa8304613, 0xfd469501,
   0x698098d8, 0x8b44f7af, 0xffff5bb1, 0x895cd7be,
   0x6b901122, 0xfd987193, 0xa679438e, 0x49b40821,
   0xf61e2562, 0xc040b340, 0x265e5a51, 0xe9b6c7aa,
   0xd62f105d, 0x02441453, 0xd8a1e681, 0xe7d3fbc8,
   0x21e1cde6, 0xc33707d6, 0xf4d50d87, 0x455a14ed,
   0xa9e3e905, 0xfcefa3f8, 0x676f02d9, 0x8d2a4c8a,
   0xfffa3942, 0x8771f681, 0x6d9d6122, 0xfde5380c,
   0xa4beea44, 0x4bdecfa9, 0xf6bb4b60, 0xbebfbc70,
   0x289b7ec6, 0xeaa127fa, 0xd4ef3085, 0x04881d05,
   0xd9d4d039, 0xe6db99e5, 0x1fa27cf8, 0xc4ac5665,
   0xf4292244, 0x432aff97, 0xab9423a7, 0xfc93a039,
   0x655b59c3, 0x8f0ccc92, 0xffeff47d, 0x85845dd1,
   0x6fa87e4f, 0xfe2ce6e0, 0xa3014314, 0x4e0811a1,
   0xf7537e82, 0xbd3af235, 0x2ad7d2bb, 0xeb86d391]

/-- The 64 MD5 per-round left-rotation amounts. -/
def md5S : List Nat :=
  [7, 12, 17, 22, 7, 12, 17, 22, 7, 12, 17, 22, 7, 12, 17, 22,
   5, 9, 14, 20, 5, 9, 14, 20, 5, 9, 14, 20, 5, 9, 14, 20,
   4, 11, 16, 23, 4, 11, 16, 23, 4, 11, 16, 23, 4, 11, 16, 23,
   6, 10, 15, 21, 6, 10, 15, 21, 6, 10, 15, 21, 6, 10, 15, 21]

structure MD5State where
  a : Nat
  b : Nat
  c : Nat
  d : Nat
  deriving DecidableEq, Repr

def md5Start : MD5State := ⟨0x67452301, 0xefcdab89, 0x98badcfe, 0x10325476⟩

/-- One of the 64 MD5 rounds, with the chunk given as a word lookup. -/
def md5Round (w : Nat → Nat) (st : MD5State) (i : Nat) : MD5State :=
  let fg : Nat × Nat :=
    if i < 16 then (mdF st.b st.c st.d, i)
    else if i < 32 then (mdG st.b st.c st.d, (5 * i + 1) % 16)
    else if i < 48 then (mdH st.b st.c st.d, (3 * i + 5) % 16)
    else (mdI st.b st.c st.d, (7 * i) % 16)
  let f := u32 (fg.1 + st.a + md5K.getD i 0 + w fg.2)
  { a := st.d, d := st.c, c := st.b, b := u32 (st.b + rotl f (md5S.getD i 0)) }

/-- Process one 64-byte chunk. -/
def processChunk (chunk : List Nat) (st : MD5State) : MD5State :=
  let w : Nat → Nat := fun g =>
    u32 (chunk.getD (4 * g) 0 + 256 * chunk.getD (4 * g + 1) 0 +
         65536 * chunk.getD (4 * g + 2) 0 + 16777216 * chunk.getD (4 * g + 3) 0)
  let r := (List.range 64).foldl (md5Round w) st
  ⟨u32 (st.a + r.a), u32 (st.b + r.b), u32 (st.c + r.c), u32 (st.d + r.d)⟩

/-- Process all 64-byte chunks of a padded message; the fuel bounds the
number of chunks and is always sufficient at the call site. -/
def processChunksAux : Nat → List Nat → MD5State → MD5State
  | 0, _, st => st
  | fuel + 1, msg, st =>
    if 64 ≤ msg.length then
      processChunksAux fuel (msg.drop 64) (processChunk (msg.take 64) st)
    else st

/-- Process all 64-byte chunks of a padded message. -/
def processChunks (msg : List Nat) (st : MD5State) : MD5State :=
  processChunksAux (msg.length / 64 + 1) msg st

/-- MD5 padding: 0x80, zeros to 56 mod 64, then the bit length as 8
little-endian bytes. -/
def md5pad (msg : List Nat) : List Nat :=
  let L := msg.length
  let n := 8 * L
  msg ++ 128 :: List.replicate ((119 - L % 64) % 64) 0 ++
    [n % 256, n / 256 % 256, n / 65536 % 256, n / 16777216 % 256,
     n / 4294967296 % 256, n / 1099511627776 % 256,
     n / 281474976710656 % 256, n / 72057594037927936 % 256]

/-- A 32-bit word as 4 little-endian bytes. -/
def toBytesLE (x : Nat) : List Nat :=
  [x % 256, x / 256 % 256, x / 65536 % 256, x / 16777216 % 256]

/-- The 16-byte MD5 digest of a byte list. -/
def md5Bytes (msg : List Nat) : List Nat :=
  let st := processChunks (md5pad msg) md5Start
  toBytesLE st.a ++ toBytesLE st.b ++ toBytesLE st.c ++ toBytesLE st.d

/-- Lowercase hex digit for a nibble (values 10 to 15 map to a to f). -/
def hexDigitChar (n : Nat) : Char :=
  if n < 10 then Char.ofNat (48 + n) else Char.ofNat (87 + n)

/-- Lowercase hex rendering of a byte list, two digits per byte, as in
Python hexdigest. -/
def hexdigest : List Nat → List Char
  | [] => []
  | b :: rest => hexDigitChar (b / 16 % 16) :: hexDigitChar (b % 16) :: hexdigest rest

/-- UTF-8 encoding of one character, as Python str.encode does per code
point. -/
def utf8Bytes (c : Char) : List Nat :=
  let n := c.toNat
  if n < 128 then [n]
  else if n < 2048 then [192 + n / 64, 128 + n % 64]
  else if n < 65536 then [224 + n / 4096, 128 + n / 64 % 64, 128 + n % 64]
  else [240 + n / 262144, 128 + n / 4096 % 64, 128 + n / 64 % 64, 128 + n % 64]

/-- UTF-8 bytes of a string (Python str.encode). -/
def strBytes (s : String) : List Nat := s.toList.flatMap utf8Bytes

/-- src/digiplayer/utils.py, generate_device_id: hash the CPU serial and
MAC joined by a dash, keep the first 12 hex digits uppercased, prefix
DIG.  The two hardware facts are passed in explicitly (get_cpu_serial
and get_mac_address read the OS). -/
def generate_device_id (cpu_serial mac : String) : String :=
  let unique := cpu_serial ++ "-" ++ mac
  let hash_value := ((hexdigest (md5Bytes (strBytes unique))).take 12).map Char.toUpper
  "DIG" ++ String.mk hash_value

set_option maxRecDepth 100000

/-! ## Data model (src/digiplayer/config.py)

The Config dataclass.  player_id is Optional with None default; its
Python truthiness (None and 0 falsy) is what send_heartbeat and
start_heartbeat test. -/

structure Config where
  server_url : String := "https://www.digireklaam.ee"
  api_prefix : String := "/api/v1"
  device_id : String := ""
  player_id : Option Nat := none
  heartbeat_interval : Nat := 30
  display_timeout : Nat := 5
  media_dir : String := ""
  log_dir : String := ""
  deriving DecidableEq, Repr

/-- A command delivered in a heartbeat response body
(dict keys id, command_type, command_data); a missing id is none. -/
structure Command where
  id : Option Nat := none
  command_type : String := ""
  command_data : List (String × String) := []
  deriving DecidableEq, Repr

/-- The parsed JSON body of a 200 heartbeat response; commands models
data.get("commands", []). -/
structure HeartbeatBody where
  commands : List Command := []
  deriving DecidableEq, Repr

/-- Outcome of the heartbeat POST as decided by the environment: an HTTP
response with a status code and parsed body, or one of the exception
classes caught in send_heartbeat. -/
inductive HttpOutcome where
  | response (code : Nat) (body : HeartbeatBody)
  | timeout
  | connectionError (msg : String)
  | otherError (msg : String)
  deriving DecidableEq, Repr

/-- Return value of send_heartbeat: the parsed body on 200, or the
error dict with its message field. -/
inductive HBResult where
  | ok (body : HeartbeatBody)
  | error (message : String)
  deriving DecidableEq, Repr

/-- Mutable fields of HeartbeatService (src/digiplayer/heartbeat.py,
constructor) plus the shared config. -/
structure HBState where
  config : Config
  running : Bool := false
  last_error : Option String := none
  consecutive_failures : Nat := 0
  registered : Bool := false
  deriving DecidableEq, Repr

/-- Observable effects of one send_heartbeat call: the state after the
call, the returned dict, whether an HTTP request was issued, the
commands handed to the command handler in order, and whether
save_config was invoked (send_heartbeat never invokes it). -/
structure HBOutcome where
  state : HBState
  result : HBResult
  httpCalled : Bool
  executed : List Command
  configSaved : Bool
  deriving DecidableEq, Repr

namespace HeartbeatService

/-- src/digiplayer/heartbeat.py lines 26-92, send_heartbeat.
handlerPresent models whether a command_handler was passed to the
constructor; http is the outcome of the POST when one is issued. -/
def send_heartbeat (s : HBState) (handlerPresent : Bool) (http : HttpOutcome) : HBOutcome :=
  if !optTruthy s.config.player_id then
    ⟨s, .error "Not registered", false, [], false⟩
  else
    match http with
    | .response code body =>
      if code = 200 then
        let executed := if handlerPresent then body.commands else []
        ⟨{ s with consecutive_failures := 0, last_error := none },
         .ok body, true, executed, false⟩
      else if code = 404 then
        ⟨{ s with last_error := some "Player not found" },
         .error "Player not found", true, [], false⟩
      else
        ⟨{ s with last_error := some ("HTTP " ++ toString code) },
         .error ("HTTP " ++ toString code), true, [], false⟩
    | .timeout =>
      ⟨{ s with consecutive_failures := s.consecutive_failures + 1,
                last_error := some "Timeout" },
       .error "Timeout", true, [], false⟩
    | .connectionError _ =>
      ⟨{ s with consecutive_failures := s.consecutive_failures + 1,
                last_error := some "Connection error" },
       .error "Connection error", true, [], false⟩
    | .otherError msg =>
      ⟨{ s with consecutive_failures := s.consecutive_failures + 1,
                last_error := some msg },
       .error msg, true, [], false⟩

end HeartbeatService

/-! ## Registration service (src/digiplayer/registration.py) -/

/-- The dict returned by check_registration: the parsed lookup response
on 200 (registered plus optional fields), or the error dict built from
a non-200 status or an exception (registered false, error set). -/
structure LookupResult where
  registered : Bool := false
  player_id : Option Nat := none
  name : Option String := none
  group_name : Option String := none
  playlist_name : Option String := none
  error : Option String := none
  deriving DecidableEq, Repr

/-- The last_status dict of RegistrationService.  The keys player_id,
name, group_name and playlist_name are absent until the registration
transition writes them; absent is modelled as none. -/
structure RegStatus where
  internet : Bool := false
  server : Bool := false
  registered : Bool := false
  ip_address : Option String := none
  error : Option String := none
  player_id : Option Nat := none
  name : Option String := none
  group_name : Option String := none
  playlist_name : Option String := none
  deriving DecidableEq, Repr

/-- last_status as initialised in the constructor. -/
def regStatusStart : RegStatus := {}

/-- What the environment answers during one update_status iteration:
the ip sampled, the internet probe result, the server probe result
(consulted only when internet holds) and the lookup result (consulted
only when the server probe holds). -/
structure PollObs where
  ip : String := "0.0.0.0"
  internet : Bool := true
  serverOk : Bool := true
  lookup : LookupResult := {}
  deriving DecidableEq, Repr

/-- Outcome of a probe HTTP GET: a response with a status code, or a
raised exception (timeout, connection refused). -/
inductive ProbeOutcome where
  | resp (code : Nat)
  | exc (msg : String)
  deriving DecidableEq, Repr

namespace RegistrationService

/-- src/digiplayer/registration.py lines 52-70, check_server: return
whether the health endpoint answered 200; only if that request raised,
fall back to the lookup endpoint with unique_id test and accept 200 or
404; false if the fallback also raised or answered anything else. -/
def check_server (health fallbackLookup : ProbeOutcome) : Bool :=
  match health with
  | .resp code => code == 200
  | .exc _ =>
    match fallbackLookup with
    | .resp code => code == 200 || code == 404
    | .exc _ => false

/-- src/digiplayer/registration.py lines 101-132, update_status: thread
the last_status record through one iteration, returning the updated
config, the updated status and whether save_config was called. -/
def update_status (cfg : Config) (st : RegStatus) (o : PollObs) :
    Config × RegStatus × Bool :=
  let st := { st with ip_address := some o.ip, internet := o.internet }
  let st := { st with server := if st.internet then o.serverOk else false }
  if st.server then
    let result := o.lookup
    let st := { st with registered := result.registered, error := result.error }
    if st.registered then
      if optTruthy result.player_id && result.player_id != cfg.player_id then
        let cfg := { cfg with player_id := result.player_id }
        let st := { st with player_id := result.player_id, name := result.name,
                            group_name := result.group_name,
                            playlist_name := result.playlist_name }
        (cfg, st, true)
      else (cfg, st, false)
    else (cfg, st, false)
  else (cfg, { st with registered := false }, false)

/-- Trace of a poll run over a finite list of iteration observations:
final config and status, the status of every completed iteration, the
arguments of every on_registered invocation, how many times save_config
ran, whether the loop ended through the registered branch, and the
observations never consumed because of that break. -/
structure PollResult where
  config : Config
  status : RegStatus
  history : List RegStatus
  callbackArgs : List RegStatus
  saves : Nat
  terminatedByBreak : Bool
  remaining : List PollObs
  deriving DecidableEq, Repr

/-- src/digiplayer/registration.py lines 134-156, the poll loop body,
iterated over the observation list; hasCallback models whether an
on_registered callback was passed to the constructor. -/
def pollAux (hasCallback : Bool) :
    Config → RegStatus → List RegStatus → List RegStatus → Nat → List PollObs → PollResult
  | cfg, st, hist, cbs, saves, [] => ⟨cfg, st, hist, cbs, saves, false, []⟩
  | cfg, st, hist, cbs, saves, o :: rest =>
    let r := update_status cfg st o
    let saves := saves + (if r.2.2 then 1 else 0)
    let hist := hist ++ [r.2.1]
    if (r.2.1).registered then
      ⟨r.1, r.2.1, hist, if hasCallback then cbs ++ [r.2.1] else cbs, saves, true, rest⟩
    else
      pollAux hasCallback r.1 r.2.1 hist cbs saves rest

/-- poll starting from the freshly constructed last_status. -/
def poll (cfg : Config) (hasCallback : Bool) (obs : List PollObs) : PollResult :=
  pollAux hasCallback cfg regStatusStart [] [] 0 obs

end RegistrationService

/-- The reading of claim C6 of check_server: the health probe counts as
available exactly when it answers 200; on any unavailable health probe
the lookup fallback is consulted and 200 or 404 means reachable.
Stated from the claim text, to be compared against check_server. -/
def check_server_claim (health fallbackLookup : ProbeOutcome) : Bool :=
  match health with
  | .resp 200 => true
  | _ =>
    match fallbackLookup with
    | .resp code => code == 200 || code == 404
    | .exc _ => false

/-! ## Agent controller (src/digiplayer/main.py) -/

/-- The controller state visible to the claims: the DigiPlayer running
flag, the two service running flags, whether a heartbeat thread was
started, whether the heartbeat run loop body was ever entered, and the
shared config. -/
structure PlayerState where
  running : Bool
  hbRunning : Bool
  regRunning : Bool
  hbThreadStarted : Bool
  hbLoopEntered : Bool
  config : Config
  deriving DecidableEq, Repr

namespace DigiPlayer

/-- src/digiplayer/main.py lines 158-163, stop: clear the controller
running flag and the cooperative flags of both services. -/
def stop (s : PlayerState) : PlayerState :=
  { s with running := false, hbRunning := false, regRunning := false }

/-- src/digiplayer/heartbeat.py lines 117-136: entering run sets
self.running to True unconditionally, so the while condition holds and
the loop body is entered, whatever the flag held before the thread
started. -/
def heartbeatRunEnter (s : PlayerState) : PlayerState :=
  { s with hbRunning := true, hbLoopEntered := true }

/-- src/digiplayer/main.py lines 88-102, start_heartbeat: return if no
truthy player_id; return if a live heartbeat thread exists; otherwise
start the thread, whose target runs HeartbeatService.run.  No check of
the controller running flag appears in the source. -/
def start_heartbeat (s : PlayerState) : PlayerState :=
  if !optTruthy s.config.player_id then s
  else if s.hbThreadStarted then s
  else heartbeatRunEnter { s with hbThreadStarted := true }

/-- src/digiplayer/main.py lines 46-52, the on_registered callback:
log, then start_heartbeat. -/
def on_registered (s : PlayerState) : PlayerState := start_heartbeat s

end DigiPlayer

/-- The claim C1 interleaving: the agent is polling for registration
with no player_id; stop completes first; then the in-flight
update_status iteration completes against lookup observation o,
mutating the shared config, and the poll loop body (already past its
while test) invokes the registration callback when the status says
registered. -/
def stopThenCallbackTrace (cfg : Config) (o : PollObs) : PlayerState :=
  let s0 : PlayerState :=
    { running := true, hbRunning := false, regRunning := true,
      hbThreadStarted := false, hbLoopEntered := false, config := cfg }
  let s1 := DigiPlayer.stop s0
  let r := RegistrationService.update_status s1.config regStatusStart o
  let s2 := { s1 with config := r.1 }
  if (r.2.1).registered then DigiPlayer.on_registered s2 else s2

/-! ## Command executor (src/digiplayer/commands.py) -/

/-- Outcomes of the OS-dependent handlers, decided by the environment:
ok b is a handler returning b after its own internal fallbacks, error e
is an exception escaping the handler into the except branch of execute.
The refresh and update_playlist handlers return True unconditionally in
the source and are not parameterised. -/
structure HandlerEnv where
  reboot : Except String Bool := .ok true
  screen_on : Except String Bool := .ok true
  screen_off : Except String Bool := .ok true
  screenshot : Except String Bool := .ok true
  deriving Repr

/-- One acknowledgement POST as issued by _acknowledge: the player and
command ids in the URL and the success and error_message query
parameters (error_message included only when truthy). -/
structure AckRecord where
  player_id : Nat
  command_id : Nat
  success : Bool
  error_message : Option String
  deriving DecidableEq, Repr

namespace CommandExecutor

/-- src/digiplayer/commands.py lines 59-76, _acknowledge: no call
without a truthy player_id; otherwise one POST whose params carry
success and, when truthy, error_message.  The HTTP outcome of the POST
is logged only and returned to nobody. -/
def acknowledge (cfg : Config) (command_id : Nat) (success : Bool)
    (error_message : Option String) : List AckRecord :=
  match cfg.player_id with
  | none => []
  | some pid =>
    if pid = 0 then []
    else [⟨pid, command_id, success,
           if strTruthy error_message then error_message else none⟩]

/-- src/digiplayer/commands.py lines 21-57, execute: dispatch on
command_type over the six known tags, catching any handler exception;
unknown tags set a descriptive error_message; then acknowledge whenever
the command id is truthy; return the success flag and the
acknowledgement calls issued. -/
def execute (cfg : Config) (env : HandlerEnv) (cmd : Command) :
    Bool × List AckRecord :=
  let dispatch : Option (Except String Bool) :=
    if cmd.command_type = "reboot" then some env.reboot
    else if cmd.command_type = "refresh" then some (Except.ok true)
    else if cmd.command_type = "screen_on" then some env.screen_on
    else if cmd.command_type = "screen_off" then some env.screen_off
    else if cmd.command_type = "screenshot" then some env.screenshot
    else if cmd.command_type = "update_playlist" then some (Except.ok true)
    else none
  let sm : Bool × Option String :=
    match dispatch with
    | some (Except.ok b) => (b, none)
    | some (Except.error e) => (false, some e)
    | none => (false, some ("Unknown command type: " ++ cmd.command_type))
  let acks :=
    match cmd.id with
    | none => []
    | some i => if i = 0 then [] else acknowledge cfg i sm.1 sm.2
  (sm.1, acks)

end CommandExecutor

/-! ## Concrete fixtures used by witnesses and counterexamples -/

/-- A registered demo config. -/
def hbDemoConfig : Config := { device_id := "DIG99395C682904", player_id := some 1 }

/-- A heartbeat service state over the registered demo config. -/
def hbDemoState : HBState := { config := hbDemoConfig }

/-- An unregistered demo config (player_id keeps its none default). -/
def freshConfig : Config := { device_id := "DIG99395C682904" }

/-- A lookup observation answering not registered. -/
def obsNotRegistered : PollObs := {}

/-- A lookup observation answering registered with player_id 7 and
descriptive metadata. -/
def obsRegistered7 : PollObs :=
  { lookup := { registered := true, player_id := some 7,
                name := some "Lobby Screen", group_name := some "Lobby",
                playlist_name := some "Default" } }

/-- A lookup observation answering registered without any player_id. -/
def obsRegisteredNoId : PollObs :=
  { lookup := { registered := true, name := some "Lobby Screen" } }

/-- Demo handler environment where every OS handler succeeds. -/
def demoEnv : HandlerEnv := {}

/-- A command of a type outside the six known tags. -/
def unknownCmd : Command := { id := some 9, command_type := "resize" }

/-! ## Sanity checks of the embedded MD5 -/

/-- Sanity: the embedded MD5 matches the standard test vector for the
empty message. -/
theorem md5_empty_vector :
    String.mk (hexdigest (md5Bytes [])) = "d41d8cd98f00b204e9800998ecf8427e" := by
  decide

/-- Sanity: the embedded MD5 matches the standard test vector for abc. -/
theorem md5_abc_vector :
    String.mk (hexdigest (md5Bytes (strBytes "abc"))) = "900150983cd24fb0d6963f7d28e17f72" := by
  decide

/-- Sanity: device id for the non-Pi fallback serial and a sample MAC. -/
theorem generate_device_id_sample :
    generate_device_id "0000000000000000" "aabbccddeeff" = "DIG99395C682904" := by
  decide

/-! ## Supporting lemmas for the device id format -/

theorem md5Bytes_length (msg : List Nat) : (md5Bytes msg).length = 16 := by
  simp [md5Bytes, toBytesLE]

theorem hexdigest_length (bs : List Nat) : (hexdigest bs).length = 2 * bs.length := by
  induction bs with
  | nil => simp [hexdigest]
  | cons b rest ih => simp [hexdigest, ih]; omega

theorem hexdigest_mem (bs : List Nat) :
    ∀ c ∈ hexdigest bs, ∃ n, n < 16 ∧ c = hexDigitChar n := by
  induction bs with
  | nil => simp [hexdigest]
  | cons b rest ih =>
    intro c hc
    simp only [hexdigest, List.mem_cons] at hc
    rcases hc with h | h | h
    · exact ⟨b / 16 % 16, Nat.mod_lt _ (by omega), h⟩
    · exact ⟨b % 16, Nat.mod_lt _ (by omega), h⟩
    · exact ih c h

theorem upper_hexDigitChar {n : Nat} (h : n < 16) :
    Char.toUpper (hexDigitChar n) ∈ "0123456789ABCDEF".toList := by
  interval_cases n <;> decide

theorem generate_device_id_toList (cpu mac : String) :
    (generate_device_id cpu mac).toList =
      'D' :: 'I' :: 'G' ::
        ((hexdigest (md5Bytes (strBytes (cpu ++ "-" ++ mac)))).take 12).map Char.toUpper := rfl

/-! ## Claim theorems -/

/-- C1 (code divergence evidence): with an unregistered config, if stop
completes and only then the in-flight registration iteration concludes
registered with player_id 7 and fires the callback, the heartbeat
thread is nevertheless started and its run loop entered, while the
controller running flag is already false.  start_heartbeat consults no
stop flag, and HeartbeatService.run re-raises its own running flag. -/
theorem C1_stop_then_callback_starts_heartbeat :
    (stopThenCallbackTrace freshConfig obsRegistered7).running = false ∧
    (stopThenCallbackTrace freshConfig obsRegistered7).hbThreadStarted = true ∧
    (stopThenCallbackTrace freshConfig obsRegistered7).hbLoopEntered = true ∧
    (stopThenCallbackTrace freshConfig obsRegistered7).config.player_id = some 7 := by
  decide

/-- C2 counterexample: a heartbeat answered with HTTP 500 (neither 200
nor 404) leaves consecutive_failures unchanged instead of incrementing
it as the claim states; only the exception branches increment. -/
theorem C2_counterexample_http500_counter_unchanged :
    (HeartbeatService.send_heartbeat hbDemoState true (.response 500 ⟨[]⟩)).state.consecutive_failures ≠
      hbDemoState.consecutive_failures + 1 ∧
    (HeartbeatService.send_heartbeat hbDemoState true (.response 500 ⟨[]⟩)).state.consecutive_failures =
      hbDemoState.consecutive_failures := by
  decide

/-- C2 amended: with player_id set, a 200 response resets the failure
counter and clears last_error; a non-200, non-404 status records the
error and returns an error result with the counter unchanged; a
timeout or connection error increments the counter, records the error
and returns an error result. -/
theorem C2_heartbeat_failure_accounting (s : HBState) (hp : Bool)
    (h : optTruthy s.config.player_id = true) :
    (∀ body,
      (HeartbeatService.send_heartbeat s hp (.response 200 body)).state.consecutive_failures = 0 ∧
      (HeartbeatService.send_heartbeat s hp (.response 200 body)).state.last_error = none) ∧
    (∀ code body, code ≠ 200 → code ≠ 404 →
      (HeartbeatService.send_heartbeat s hp (.response code body)).state.consecutive_failures =
        s.consecutive_failures ∧
      (HeartbeatService.send_heartbeat s hp (.response code body)).state.last_error =
        some ("HTTP " ++ toString code) ∧
      (HeartbeatService.send_heartbeat s hp (.response code body)).result =
        .error ("HTTP " ++ toString code)) ∧
    ((HeartbeatService.send_heartbeat s hp .timeout).state.consecutive_failures =
        s.consecutive_failures + 1 ∧
      (HeartbeatService.send_heartbeat s hp .timeout).state.last_error = some "Timeout" ∧
      (HeartbeatService.send_heartbeat s hp .timeout).result = .error "Timeout") ∧
    (∀ m,
      (HeartbeatService.send_heartbeat s hp (.connectionError m)).state.consecutive_failures =
        s.consecutive_failures + 1 ∧
      (HeartbeatService.send_heartbeat s hp (.connectionError m)).state.last_error =
        some "Connection error" ∧
      (HeartbeatService.send_heartbeat s hp (.connectionError m)).result =
        .error "Connection error") := by
  refine ⟨fun body => ?_, fun code body h200 h404 => ?_, ?_, fun m => ?_⟩ <;>
    simp_all [HeartbeatService.send_heartbeat]

/-- C2 witness: the amended theorem at the registered demo state and a
timeout outcome. -/
theorem C2_heartbeat_failure_accounting_witness :
    optTruthy hbDemoState.config.player_id = true ∧
    (HeartbeatService.send_heartbeat hbDemoState true .timeout).state.consecutive_failures =
      hbDemoState.consecutive_failures + 1 :=
  ⟨by decide, ((C2_heartbeat_failure_accounting hbDemoState true (by decide)).2.2.1).1⟩

/-- C4: with player_id set and a command handler configured, a 200
response hands every command of the body to the handler, in list order,
as part of the send_heartbeat call itself, and returns the body. -/
theorem C4_commands_delivered_in_order (s : HBState) (body : HeartbeatBody)
    (h : optTruthy s.config.player_id = true) :
    (HeartbeatService.send_heartbeat s true (.response 200 body)).executed = body.commands ∧
    (HeartbeatService.send_heartbeat s true (.response 200 body)).result = .ok body := by
  simp [HeartbeatService.send_heartbeat, h]

/-- C4 witness: a response carrying two commands executes both in
order. -/
theorem C4_commands_delivered_in_order_witness :
    (HeartbeatService.send_heartbeat hbDemoState true
      (.response 200 ⟨[{ id := some 1, command_type := "refresh" },
                       { id := some 2, command_type := "screen_off" }]⟩)).executed =
      [{ id := some 1, command_type := "refresh" },
       { id := some 2, command_type := "screen_off" }] :=
  (C4_commands_delivered_in_order hbDemoState
    ⟨[{ id := some 1, command_type := "refresh" },
      { id := some 2, command_type := "screen_off" }]⟩ (by decide)).1

/-- C5: with player_id set, a 404 heartbeat response leaves the config
untouched (player_id in particular), calls save_config nowhere, and
returns an error result; the call returns normally since every raise is
caught inside send_heartbeat. -/
theorem C5_heartbeat_404_preserves_registration (s : HBState) (hp : Bool)
    (body : HeartbeatBody) (h : optTruthy s.config.player_id = true) :
    (HeartbeatService.send_heartbeat s hp (.response 404 body)).state.config = s.config ∧
    (HeartbeatService.send_heartbeat s hp (.response 404 body)).state.config.player_id =
      s.config.player_id ∧
    (HeartbeatService.send_heartbeat s hp (.response 404 body)).configSaved = false ∧
    (HeartbeatService.send_heartbeat s hp (.response 404 body)).result =
      .error "Player not found" := by
  simp [HeartbeatService.send_heartbeat, h]

/-- C5 witness: the 404 theorem at the registered demo state. -/
theorem C5_heartbeat_404_preserves_registration_witness :
    (HeartbeatService.send_heartbeat hbDemoState true (.response 404 ⟨[]⟩)).state.config =
      hbDemoState.config ∧
    (HeartbeatService.send_heartbeat hbDemoState true (.response 404 ⟨[]⟩)).result =
      .error "Player not found" :=
  ⟨(C5_heartbeat_404_preserves_registration hbDemoState true ⟨[]⟩ (by decide)).1,
   (C5_heartbeat_404_preserves_registration hbDemoState true ⟨[]⟩ (by decide)).2.2.2⟩

/-- C6 counterexample: a health probe answering 503 with a lookup
fallback that would answer 200 makes check_server return false, while
the claim reading (fall back whenever the health endpoint is not
answering 200, false only when both probes fail) demands true; the
source falls back only when the health request raises. -/
theorem C6_counterexample_health_non200_no_fallback :
    RegistrationService.check_server (.resp 503) (.resp 200) = false ∧
    check_server_claim (.resp 503) (.resp 200) = true := by
  decide

/-- C6 amended: check_server answers exactly whether the health probe
returned 200; only when the health request raises is the lookup
fallback consulted, and then 200 or 404 means reachable and anything
else, or a second raise, means unreachable. -/
theorem C6_check_server_fallback_only_on_exception (code : Nat) (m : String)
    (l : ProbeOutcome) :
    RegistrationService.check_server (.resp code) l = (code == 200) ∧
    RegistrationService.check_server (.exc m) (.resp code) = (code == 200 || code == 404) ∧
    (∀ m2, RegistrationService.check_server (.exc m) (.exc m2) = false) :=
  ⟨rfl, rfl, fun _ => rfl⟩

/-- C7: a command whose command_type is none of the six known tags
makes execute return false with the descriptive unknown-type message,
raising nothing, and, given a truthy player_id and a truthy command id,
still issues exactly one acknowledgement carrying success false and
that message. -/
theorem C7_unknown_command_type (cfg : Config) (env : HandlerEnv) (cmd : Command)
    (pid i : Nat) (hpid : cfg.player_id = some pid) (hpid0 : pid ≠ 0)
    (hid : cmd.id = some i) (hi : i ≠ 0)
    (h1 : cmd.command_type ≠ "reboot") (h2 : cmd.command_type ≠ "refresh")
    (h3 : cmd.command_type ≠ "screen_on") (h4 : cmd.command_type ≠ "screen_off")
    (h5 : cmd.command_type ≠ "screenshot") (h6 : cmd.command_type ≠ "update_playlist") :
    CommandExecutor.execute cfg env cmd =
      (false, [⟨pid, i, false, some ("Unknown command type: " ++ cmd.command_type)⟩]) := by
  have hne : strTruthy (some ("Unknown command type: " ++ cmd.command_type)) = true := by
    simp only [strTruthy, bne_iff_ne, ne_eq, String.length_append]
    rw [show ("Unknown command type: ").length = 22 from rfl]
    omega
  simp [CommandExecutor.execute, CommandExecutor.acknowledge, hpid, hpid0, hid, hi,
        h1, h2, h3, h4, h5, h6, hne]

/-- C7 witness: the unknown-type theorem at a registered config and a
command of type resize with id 9. -/
theorem C7_unknown_command_type_witness :
    CommandExecutor.execute { device_id := "DIG99395C682904", player_id := some 3 }
        demoEnv unknownCmd =
      (false, [⟨3, 9, false, some ("Unknown command type: " ++ unknownCmd.command_type)⟩]) :=
  C7_unknown_command_type { device_id := "DIG99395C682904", player_id := some 3 }
    demoEnv unknownCmd 3 9 rfl (by decide) rfl (by decide)
    (by decide) (by decide) (by decide) (by decide) (by decide) (by decide)

/-- C8: without a truthy player_id, send_heartbeat returns the Not
registered error without issuing any HTTP request, executing any
command or changing any state. -/
theorem C8_no_player_id_noop (s : HBState) (hp : Bool) (http : HttpOutcome)
    (h : optTruthy s.config.player_id = false) :
    HeartbeatService.send_heartbeat s hp http =
      ⟨s, .error "Not registered", false, [], false⟩ := by
  simp [HeartbeatService.send_heartbeat, h]

/-- C8 witness: the no-op theorem at an unregistered state with a
pending timeout outcome that is never consulted. -/
theorem C8_no_player_id_noop_witness :
    HeartbeatService.send_heartbeat { config := freshConfig } true .timeout =
      ⟨{ config := freshConfig }, .error "Not registered", false, [], false⟩ :=
  C8_no_player_id_noop { config := freshConfig } true .timeout (by decide)

/-- C9: generate_device_id is a function of the two hardware facts, so
two calls over the same facts agree; and for every pair of facts the
result is the fixed prefix DIG followed by exactly 12 characters, each
an uppercase hexadecimal digit. -/
theorem C9_generate_device_id_deterministic_format (cpu mac : String) :
    generate_device_id cpu mac = generate_device_id cpu mac ∧
    (generate_device_id cpu mac).toList.take 3 = ['D', 'I', 'G'] ∧
    ((generate_device_id cpu mac).toList.drop 3).length = 12 ∧
    ∀ c ∈ (generate_device_id cpu mac).toList.drop 3, c ∈ "0123456789ABCDEF".toList := by
  refine ⟨rfl, ?_, ?_, ?_⟩
  · rw [generate_device_id_toList]
    rfl
  · rw [generate_device_id_toList]
    simp [List.length_take, hexdigest_length, md5Bytes_length]
  · rw [generate_device_id_toList]
    intro c hc
    simp only [List.drop_succ_cons, List.drop_zero, List.mem_map] at hc
    obtain ⟨c0, hc0, rfl⟩ := hc
    have hmem : c0 ∈ hexdigest (md5Bytes (strBytes (cpu ++ "-" ++ mac))) :=
      List.take_subset 12 _ hc0
    obtain ⟨n, hn, rfl⟩ := hexdigest_mem _ c0 hmem
    exact upper_hexDigitChar hn

/-- The poll run of claim C3: lookup answers not registered twice, then
registered with player_id 7, with internet and server reachable and a
callback configured. -/
def c3run (cfg : Config) : RegistrationService.PollResult :=
  RegistrationService.poll cfg true [obsNotRegistered, obsNotRegistered, obsRegistered7]

/-- C3: over the response sequence not-registered, not-registered,
registered(7), a poll starting with player_id unset persists player_id
7 exactly once, reaches a registered status in exactly one iteration,
invokes the callback exactly once with a snapshot carrying id 7, and
breaks out of the loop consuming nothing further. -/
theorem C3_registration_sequence (cfg : Config) (h : cfg.player_id = none) :
    (c3run cfg).config.player_id = some 7 ∧
    (c3run cfg).saves = 1 ∧
    (c3run cfg).callbackArgs.map (fun st => st.player_id) = [some 7] ∧
    (c3run cfg).callbackArgs.length = 1 ∧
    ((c3run cfg).history.filter (fun st => st.registered)).length = 1 ∧
    (c3run cfg).terminatedByBreak = true ∧
    (c3run cfg).remaining = [] := by
  simp [c3run, RegistrationService.poll, RegistrationService.pollAux,
        RegistrationService.update_status, obsNotRegistered, obsRegistered7,
        regStatusStart, h,
        show optTruthy (some 7) = true from rfl,
        show ((some 7 : Option Nat) != (none : Option Nat)) = true from rfl]

/-- C3 witness: the sequence theorem at an unregistered concrete
config. -/
theorem C3_registration_sequence_witness :
    (c3run freshConfig).config.player_id = some 7 ∧
    (c3run freshConfig).saves = 1 ∧
    (c3run freshConfig).callbackArgs.map (fun st => st.player_id) = [some 7] ∧
    (c3run freshConfig).callbackArgs.length = 1 ∧
    ((c3run freshConfig).history.filter (fun st => st.registered)).length = 1 ∧
    (c3run freshConfig).terminatedByBreak = true ∧
    (c3run freshConfig).remaining = [] :=
  C3_registration_sequence freshConfig (by decide)

/-- The poll run of claim C10: the iteration that observes lookup
response lr (internet and server reachable so the lookup is consulted,
ip the sampled address). -/
def c10run (cfg : Config) (ip : String) (lr : LookupResult) : RegistrationService.PollResult :=
  RegistrationService.poll cfg true
    [{ ip := ip, internet := true, serverOk := true, lookup := lr }]

/-- C10: every lookup response that says registered but carries no
player_id (whatever its metadata and error fields, and whatever ip was
sampled) still breaks the loop and fires the callback once, with the
snapshot carrying no player_id; the config keeps its unset player_id,
save_config is never called, and a subsequent start_heartbeat over that
config starts nothing and changes nothing. -/
theorem C10_registered_without_player_id (cfg : Config) (ip : String) (lr : LookupResult)
    (h : cfg.player_id = none) (hr : lr.registered = true) (hpid : lr.player_id = none) :
    (c10run cfg ip lr).terminatedByBreak = true ∧
    (c10run cfg ip lr).callbackArgs.map (fun st => st.player_id) = [none] ∧
    (c10run cfg ip lr).callbackArgs.length = 1 ∧
    (c10run cfg ip lr).saves = 0 ∧
    (c10run cfg ip lr).config = cfg ∧
    DigiPlayer.start_heartbeat
        { running := true, hbRunning := false, regRunning := false,
          hbThreadStarted := false, hbLoopEntered := false, config := (c10run cfg ip lr).config } =
      { running := true, hbRunning := false, regRunning := false,
        hbThreadStarted := false, hbLoopEntered := false, config := (c10run cfg ip lr).config } := by
  have hc : (c10run cfg ip lr).config = cfg := by
    simp [c10run, RegistrationService.poll, RegistrationService.pollAux,
          RegistrationService.update_status, regStatusStart, hr, hpid, optTruthy]
  refine ⟨?_, ?_, ?_, ?_, hc, ?_⟩ <;>
    simp [c10run, RegistrationService.poll, RegistrationService.pollAux,
          RegistrationService.update_status, regStatusStart,
          DigiPlayer.start_heartbeat, DigiPlayer.heartbeatRunEnter,
          h, hc, hr, hpid, optTruthy]

/-- C10 witness: the theorem at an unregistered concrete config and the
concrete registered-without-id observation. -/
theorem C10_registered_without_player_id_witness :
    (c10run freshConfig "0.0.0.0" obsRegisteredNoId.lookup).terminatedByBreak = true ∧
    (c10run freshConfig "0.0.0.0" obsRegisteredNoId.lookup).callbackArgs.map
      (fun st => st.player_id) = [none] ∧
    (c10run freshConfig "0.0.0.0" obsRegisteredNoId.lookup).callbackArgs.length = 1 ∧
    (c10run freshConfig "0.0.0.0" obsRegisteredNoId.lookup).saves = 0 ∧
    (c10run freshConfig "0.0.0.0" obsRegisteredNoId.lookup).config = freshConfig ∧
    DigiPlayer.start_heartbeat
        { running := true, hbRunning := false, regRunning := false,
          hbThreadStarted := false, hbLoopEntered := false,
          config := (c10run freshConfig "0.0.0.0" obsRegisteredNoId.lookup).config } =
      { running := true, hbRunning := false, regRunning := false,
        hbThreadStarted := false, hbLoopEntered := false,
        config := (c10run freshConfig "0.0.0.0" obsRegisteredNoId.lookup).config } :=
  C10_registered_without_player_id freshConfig "0.0.0.0" obsRegisteredNoId.lookup
    (by decide) (by decide) (by decide)
